import Mathlib

/-!
# Verification of the River_Dot analytical core

Shallow embedding of the analytical pipeline of the River_Dot repository:
`src/js/lidarProcessor.js` (CSV/GeoJSON ingestion, spatial join, validation)
and `src/js/analyzeRiver.js` (hydrodynamic risk model, statistics).

The LiDAR processing module works on strings, association-style JS objects
and rational coordinates, so it is embedded computably over `List Char` and
`ℚ`.  The risk model uses `Math.sqrt` and fractional `Math.pow`, so it is
embedded over `ℝ` with `Real.sqrt` and real exponentiation.

JavaScript conventions modelled explicitly:
* `x || d` on a number-or-undefined resolves to `d` exactly when `x` is
  absent (`undefined`) or `0` (both falsy), captured by `jsOr`;
* object field access returns `undefined` for a missing key, captured by
  `Option`/`JSVal.undefined`;
* spreading `...props` after explicit keys in an object literal lets the
  bindings of `props` override the explicit keys, captured by `objFind`
  returning the last binding of an association list.
-/

namespace River

/-- JS strings, embedded as lists of characters so all string operations
reduce in the kernel. -/
abbrev JStr := List Char

/-- A JS value as stored in a parsed-CSV / GeoJSON-derived object: either
`undefined`, a (finite) number, or a string. -/
inductive JSVal where
  | undefined : JSVal
  | num : ℚ → JSVal
  | str : JStr → JSVal
deriving DecidableEq, Repr

/-- JS truthiness for the values above: `undefined` and `0` and the empty
string are falsy. -/
def JSVal.truthy : JSVal → Bool
  | .undefined => false
  | .num q => q != 0
  | .str s => s != []

/-- `x || y` on JS values. -/
def jsOrV (a b : JSVal) : JSVal := if a.truthy then a else b

/-- `x || d` where `x` is a possibly-absent number and `d` a number default:
the default is used when `x` is `undefined` or `0` (JS falsy). -/
def jsOr {α : Type} [Zero α] [DecidableEq α] (o : Option α) (dflt : α) : α :=
  match o with
  | some v => if v = 0 then dflt else v
  | none => dflt

/-- Truthiness of a possibly-absent number (`undefined` and `0` falsy). -/
def jsTruthy {α : Type} [Zero α] [DecidableEq α] (o : Option α) : Bool :=
  match o with
  | some v => v != 0
  | none => false

/-- Split a character list at every character satisfying `p`
(model of JS `String.prototype.split`). -/
def splitBy (p : Char → Bool) (s : JStr) : List JStr :=
  s.foldr
    (fun c acc =>
      match acc with
      | [] => [[]]
      | h :: t => if p c then [] :: h :: t else (c :: h) :: t)
    [[]]

/-- Split at a single separator character. -/
def splitChar (c : Char) (s : JStr) : List JStr := splitBy (fun x => x == c) s

/-- Model of JS `String.prototype.trim`: drop whitespace from both ends. -/
def jsTrim (s : JStr) : JStr :=
  ((s.dropWhile Char.isWhitespace).reverse.dropWhile Char.isWhitespace).reverse

/-!
Rational arithmetic helpers.  The standard `Rat.add`/`Rat.mul`/`Rat.div`
do not reduce inside the kernel, so the embedding computes with `mkRat`
over integer numerators and denominators; the bridge lemmas `qadd_eq`,
`qsub_eq`, `qmul_eq` identify these with the field operations of `ℚ`
for symbolic reasoning.
-/

/-- Product of two rationals, computed via `mkRat`. -/
def qmul (a b : ℚ) : ℚ := mkRat (a.num * b.num) (a.den * b.den)

/-- Sum of two rationals, computed via `mkRat`. -/
def qadd (a b : ℚ) : ℚ :=
  mkRat (a.num * (b.den : ℤ) + b.num * (a.den : ℤ)) (a.den * b.den)

/-- Difference of two rationals, computed via `mkRat`. -/
def qsub (a b : ℚ) : ℚ :=
  mkRat (a.num * (b.den : ℤ) - b.num * (a.den : ℤ)) (a.den * b.den)

/-- Negation of a rational, computed via `mkRat`. -/
def qneg (a : ℚ) : ℚ := mkRat (-a.num) a.den

/-- Numeric value of a digit string. -/
def digitsToNat (s : JStr) : ℕ :=
  s.foldl (fun n c => 10 * n + (c.toNat - Char.toNat '0')) 0

/-- Every character is a decimal digit. -/
def allDigits (s : JStr) : Bool := s.all Char.isDigit

/-- Mantissa of a JS decimal numeral: `digits`, `digits.digits`, `.digits`
or `digits.` forms; the value of `a.b` is `(a·10^k + b) / 10^k` with `k`
the number of fraction digits. -/
def parseMantissa (s : JStr) : Option ℚ :=
  match splitChar '.' s with
  | [a] => if a != [] && allDigits a then some (mkRat (digitsToNat a) 1) else none
  | [a, b] =>
      if (a != [] || b != []) && allDigits a && allDigits b then
        some (mkRat (digitsToNat a * 10 ^ b.length + digitsToNat b) (10 ^ b.length))
      else none
  | _ => none

/-- Scale a rational by `10 ^ e` (the exponent part of a numeral). -/
def applyExp (q : ℚ) (e : ℤ) : ℚ :=
  match e with
  | .ofNat n => mkRat (q.num * (10 : ℤ) ^ n) q.den
  | .negSucc n => mkRat q.num (q.den * 10 ^ (n + 1))

/-- Exponent part of a JS numeral, with optional sign. -/
def parseExp (s : JStr) : Option ℤ :=
  match s with
  | '-' :: r => if r != [] && allDigits r then some (-(digitsToNat r : ℤ)) else none
  | '+' :: r => if r != [] && allDigits r then some ((digitsToNat r : ℤ)) else none
  | _ => if s != [] && allDigits s then some ((digitsToNat s : ℤ)) else none

/-- Unsigned JS numeral with optional exponent. -/
def jsNumberCore (s : JStr) : Option ℚ :=
  match splitBy (fun c => c == 'e' || c == 'E') s with
  | [m] => parseMantissa m
  | [m, e] => do
      let mv ← parseMantissa m
      let ev ← parseExp e
      pure (applyExp mv ev)
  | _ => none

/-- Model of JS numeric conversion `Number(string)` as used through
`isNaN`/`parseFloat` on trimmed CSV cells, for finite decimal numerals
(the hexadecimal and `Infinity` forms are not exercised by this data). -/
def jsNumber (s : JStr) : Option ℚ :=
  match s with
  | '-' :: r => (jsNumberCore r).map qneg
  | '+' :: r => jsNumberCore r
  | _ => jsNumberCore s

/-- A JS object as an association list of bindings; later bindings
(assignments / later spread entries) override earlier ones. -/
abbrev JSObj := List (JStr × JSVal)

/-- Look up the LAST binding of a key in an object (JS assignment and
object-literal/spread semantics: the latest write wins). -/
def objFind (o : JSObj) (k : JStr) : Option JSVal :=
  match o with
  | [] => none
  | (k2, v) :: rest =>
      match objFind rest k with
      | some r => some r
      | none => if k2 = k then some v else none

/-- JS member access `obj.k`: `undefined` when the key is absent. -/
def jsGet (o : JSObj) (k : JStr) : JSVal := (objFind o k).getD .undefined

/-! ## CSV ingestion — `parseCSVText` of `src/js/lidarProcessor.js` -/

/-- Error raised by `parseCSVText`, one constructor per `throw` site
(the JS error message text is determined by the constructor; the
`missingColumns` message lists exactly the carried column names). -/
inductive CSVErr where
  | headerAndRow : CSVErr
  | missingColumns : List JStr → CSVErr
  | noValidRows : CSVErr
deriving DecidableEq, Repr

/-- Split the text on newline and keep lines whose trim is non-empty. -/
def csvLines (csvText : JStr) : List JStr :=
  (splitChar '\n' csvText).filter (fun l => 0 < (jsTrim l).length)

/-- `lines[0].split(,).map(h => h.trim())` (the header row). -/
def csvHeader (csvText : JStr) : List JStr :=
  (splitChar ',' ((csvLines csvText).headD [])).map jsTrim

/-- The required CSV columns. -/
def requiredColumns : List JStr :=
  ["segment_id".toList, "latitude".toList, "longitude".toList]

/-- `requiredColumns.filter(col => !header.includes(col))`. -/
def csvMissing (csvText : JStr) : List JStr :=
  requiredColumns.filter (fun c => !(csvHeader csvText).contains c)

/-- One parsed CSV cell: `values[idx]` (or `undefined` past the end),
coerced to a number when `!isNaN(value) && value !== ''`. -/
def cellValue (values : List JStr) (idx : ℕ) : JSVal :=
  match values.get? idx with
  | none => .undefined
  | some v =>
      match jsNumber v with
      | some q => if v != [] then .num q else .str v
      | none => .str v

/-- Build the row object: `header.forEach((column, idx) => obj[column] = ...)`;
for a duplicated column name the later assignment wins, which `objFind`
(last-binding lookup) reproduces. -/
def csvRowObj (header : List JStr) (line : JStr) : JSObj :=
  let values := (splitChar ',' line).map jsTrim
  header.enum.map (fun p => (p.2, cellValue values p.1))

/-- `obj.segment_id && obj.latitude && obj.longitude` (row kept only when
all three are truthy). -/
def csvRowValid (obj : JSObj) : Bool :=
  (jsGet obj "segment_id".toList).truthy &&
  (jsGet obj "latitude".toList).truthy &&
  (jsGet obj "longitude".toList).truthy

/-- The data rows that survive the truthiness filter. -/
def csvDataRows (csvText : JStr) : List JSObj :=
  (csvLines csvText).tail.filterMap (fun line =>
    let obj := csvRowObj (csvHeader csvText) line
    if csvRowValid obj then some obj else none)

/-- `parseCSVText` of `src/js/lidarProcessor.js`: split into non-empty
lines, require at least a header and one data row, require the three
mandatory columns, parse and filter data rows, and fail when no valid
row survives. -/
def parseCSVText (csvText : JStr) : Except CSVErr (List JSObj) :=
  if (csvLines csvText).length < 2 then
    .error .headerAndRow
  else if 0 < (csvMissing csvText).length then
    .error (.missingColumns (csvMissing csvText))
  else if (csvDataRows csvText).length = 0 then
    .error .noValidRows
  else
    .ok (csvDataRows csvText)

instance {e a : Type} [DecidableEq e] [DecidableEq a] : DecidableEq (Except e a)
  | .error x, .error y =>
      if h : x = y then .isTrue (by rw [h])
      else .isFalse (fun hh => by cases hh; exact h rfl)
  | .error _, .ok _ => .isFalse (fun hh => by cases hh)
  | .ok _, .error _ => .isFalse (fun hh => by cases hh)
  | .ok x, .ok y =>
      if h : x = y then .isTrue (by rw [h])
      else .isFalse (fun hh => by cases hh; exact h rfl)

/-! ## GeoJSON ingestion — `processLidarGeoJSON` of `src/js/lidarProcessor.js` -/

/-- A GeoJSON point geometry as accessed by `processLidarGeoJSON`
(only its `coordinates` array is read; a missing array models a falsy
`geometry.coordinates`). -/
structure GeoCoordObj where
  coordinates : Option (List ℚ)
deriving DecidableEq

/-- A GeoJSON feature as consumed by `processLidarGeoJSON`: a possibly
missing `properties` object and a possibly missing `geometry`. -/
structure LidarFeature where
  properties : Option JSObj
  geometry : Option GeoCoordObj
deriving DecidableEq

/-- A GeoJSON document: `features` is `none` when the object has no
`features` array (the `!geoJsonData.features || !Array.isArray(...)`
check of the source). -/
structure GeoData where
  features : Option (List LidarFeature)
deriving DecidableEq

/-- `feature.geometry?.coordinates || []`. -/
def geomCoords (feature : LidarFeature) : List ℚ :=
  match feature.geometry with
  | some g => g.coordinates.getD []
  | none => []

/-- `coords[i]` as a JS value (`undefined` past the end). -/
def coordAt (feature : LidarFeature) (i : ℕ) : JSVal :=
  match (geomCoords feature).get? i with
  | some q => .num q
  | none => .undefined

/-- `feature.properties || {}`. -/
def featureProps (feature : LidarFeature) : JSObj := feature.properties.getD []

/-- The object-literal mapper inside `processLidarGeoJSON`: seven explicit
keys followed by the spread `...props`.  Because the spread comes last,
any binding already present in `props` overrides the explicit key with
the same name (`objFind` takes the last binding). -/
def processLidarFeature (feature : LidarFeature) : JSObj :=
  let props := featureProps feature
  [("segment_id".toList,
      jsOrV (jsGet props "segment_id".toList) (jsGet props "id".toList)),
   ("latitude".toList,
      jsOrV (coordAt feature 1) (jsGet props "latitude".toList)),
   ("longitude".toList,
      jsOrV (coordAt feature 0) (jsGet props "longitude".toList)),
   ("bank_height_m".toList,
      jsOrV (jsGet props "bank_height_m".toList)
            (jsGet props "lidar_avg_bank_height_m".toList)),
   ("veg_density".toList,
      jsOrV (jsGet props "veg_density".toList)
            (jsGet props "lidar_riparian_veg_density".toList)),
   ("bank_slope".toList,
      jsOrV (jsGet props "bank_slope".toList)
            (jsGet props "lidar_bank_slope".toList)),
   ("roughness_coefficient".toList,
      jsOrV (jsGet props "roughness_coefficient".toList)
            (jsGet props "manning_n".toList))]
  ++ props

/-- Error raised by `processLidarGeoJSON` when the input has no
`features` array. -/
inductive GeoErr where
  | featuresRequired : GeoErr
deriving DecidableEq

/-- `processLidarGeoJSON` of `src/js/lidarProcessor.js`. -/
def processLidarGeoJSON (geoJsonData : GeoData) : Except GeoErr (List JSObj) :=
  match geoJsonData.features with
  | none => .error .featuresRequired
  | some fs => .ok (fs.map processLidarFeature)

/-! ## Spatial join — `mergeLidarWithRiver` of `src/js/lidarProcessor.js` -/

/-- One GeoJSON position `[lon, lat]`. -/
structure Coordinate where
  lon : ℚ
  lat : ℚ
deriving DecidableEq

/-- River-segment geometry as inspected by `getSegmentCenter`; `other`
covers every geometry type that is neither `LineString` nor
`MultiLineString` (including a missing geometry / missing coordinates,
for which the source also returns `null`). -/
inductive RiverGeometry where
  | lineString (coordinates : List Coordinate)
  | multiLineString (coordinates : List (List Coordinate))
  | other
deriving DecidableEq

/-- A segment-center point. -/
structure Center where
  latitude : ℚ
  longitude : ℚ
deriving DecidableEq

/-- `getSegmentCenter` of `src/js/lidarProcessor.js`: the coordinate at
index `floor(length/2)` of a `LineString`, the middle coordinate of the
middle sub-line of a `MultiLineString`, `null` otherwise.  For a
non-empty coordinate array the middle index is always in range; on an
empty array the source would fault reading `coords[mid][1]`, modelled
as `none` (no claim exercises that case). -/
def getSegmentCenter : RiverGeometry → Option Center
  | .lineString coords =>
      (coords.get? (coords.length / 2)).map (fun c => ⟨c.lat, c.lon⟩)
  | .multiLineString css =>
      match css.get? (css.length / 2) with
      | some cs => (cs.get? (cs.length / 2)).map (fun c => ⟨c.lat, c.lon⟩)
      | none => none
  | .other => none

/-- A LiDAR point as consumed by the merge: required coordinates and the
four optional transferred attributes. -/
structure LidarPt where
  segment_id : JSVal
  latitude : ℚ
  longitude : ℚ
  bank_height_m : Option ℚ := none
  veg_density : Option ℚ := none
  bank_slope : Option ℚ := none
  roughness_coefficient : Option ℚ := none
deriving DecidableEq

/-- `calculateDistance` of `src/js/lidarProcessor.js` without the final
`Math.sqrt`: the source returns `sqrt((lat2-lat1)^2 + (lon2-lon1)^2)`,
and the square root — strictly monotone on the nonnegatives — is applied
to every distance before the single strict comparison in
`findNearestLidarPoint`, so dropping it changes no comparison outcome
and keeps the definition computable over `ℚ`. -/
def calculateDistance (lat1 lon1 lat2 lon2 : ℚ) : ℚ :=
  let dLat := qmul (qsub lat2 lat1) (qsub lat2 lat1)
  let dLon := qmul (qsub lon2 lon1) (qsub lon2 lon1)
  qadd dLat dLon

/-- One iteration of the `forEach` in `findNearestLidarPoint`, on the
`(nearestPoint, minDistance)` state.  The initial
`minDistance = Infinity` is modelled by `none`; every finite distance is
below Infinity, so the first point always replaces the initial state. -/
def nearestStep (lat lon : ℚ) (acc : Option LidarPt × Option ℚ)
    (point : LidarPt) : Option LidarPt × Option ℚ :=
  let dist := calculateDistance lat lon point.latitude point.longitude
  match acc.2 with
  | none => (some point, some dist)
  | some m => if dist < m then (some point, some dist) else acc

/-- `findNearestLidarPoint` of `src/js/lidarProcessor.js`: scan the whole
array keeping the first strict minimum (`dist < minDistance`). -/
def findNearestLidarPoint (lat lon : ℚ) (lidarPoints : List LidarPt) :
    Option LidarPt :=
  (lidarPoints.foldl (nearestStep lat lon)
    ((none : Option LidarPt), (none : Option ℚ))).1

/-- River-segment properties as touched by the merge. -/
structure RiverProps where
  lidar_avg_bank_height_m : Option ℚ := none
  lidar_riparian_veg_density : Option ℚ := none
  lidar_bank_slope : Option ℚ := none
  manning_n : Option ℚ := none
  lidar_merged : Bool := false
  lidar_source_id : Option JSVal := none
deriving DecidableEq

/-- A river-segment feature as consumed by the merge. -/
structure RiverFeature where
  geometry : RiverGeometry
  properties : RiverProps
deriving DecidableEq

/-- A river FeatureCollection (the typed model always carries a
`features` list, so the source's `!riverGeoJSON.features` throw cannot
fire here). -/
structure RiverCollection where
  features : List RiverFeature
deriving DecidableEq

/-- Error raised by `mergeLidarWithRiver` for an empty LiDAR array. -/
inductive MergeErr where
  | invalidLidar : MergeErr
deriving DecidableEq

/-- The per-point property update of the merge: the three truthiness-guarded
copies, the defined-and-non-null-guarded vegetation copy, then the
unconditional `lidar_merged` / `lidar_source_id` metadata. -/
def applyLidarToProps (props : RiverProps) (nearest : LidarPt) : RiverProps :=
  let p1 := if jsTruthy nearest.bank_height_m then
      { props with lidar_avg_bank_height_m := nearest.bank_height_m } else props
  let p2 := if nearest.veg_density.isSome then
      { p1 with lidar_riparian_veg_density := nearest.veg_density } else p1
  let p3 := if jsTruthy nearest.bank_slope then
      { p2 with lidar_bank_slope := nearest.bank_slope } else p2
  let p4 := if jsTruthy nearest.roughness_coefficient then
      { p3 with manning_n := nearest.roughness_coefficient } else p3
  { p4 with lidar_merged := true, lidar_source_id := some nearest.segment_id }

/-- The body of the `map` inside `mergeLidarWithRiver`. -/
def mergeFeature (lidarArray : List LidarPt) (feature : RiverFeature) :
    RiverFeature :=
  match getSegmentCenter feature.geometry with
  | none => feature
  | some center =>
      match findNearestLidarPoint center.latitude center.longitude lidarArray with
      | none => feature
      | some nearest =>
          { feature with properties := applyLidarToProps feature.properties nearest }

/-- `mergeLidarWithRiver` of `src/js/lidarProcessor.js`. -/
def mergeLidarWithRiver (riverGeoJSON : RiverCollection)
    (lidarArray : List LidarPt) : Except MergeErr RiverCollection :=
  if lidarArray.length = 0 then .error .invalidLidar
  else .ok { riverGeoJSON with
              features := riverGeoJSON.features.map (mergeFeature lidarArray) }

/-! ## Validation — `validateLidarData` of `src/js/lidarProcessor.js` -/

/-- A LiDAR point as inspected by `validateLidarData`. -/
structure VPoint where
  latitude : Option ℚ := none
  longitude : Option ℚ := none
  bank_height_m : Option ℚ := none
  veg_density : Option ℚ := none
deriving DecidableEq

/-- One entry of the `errors` / `warnings` lists, one constructor per
message produced by the source. -/
inductive VIssue where
  | emptyArray : VIssue
  | missingLatLon (idx : ℕ) : VIssue
  | invalidLatitude (idx : ℕ) (v : ℚ) : VIssue
  | invalidLongitude (idx : ℕ) (v : ℚ) : VIssue
  | vegDensityOutOfRange (idx : ℕ) : VIssue
  | unusualBankHeight (idx : ℕ) (v : ℚ) : VIssue
  | noValidPoints : VIssue
deriving DecidableEq

/-- The validation result; `validPoints` is only assigned after the
per-point loop in the source, so it is absent (`none`) on the
empty-array early return. -/
structure VResult where
  isValid : Bool
  errors : List VIssue
  warnings : List VIssue
  totalPoints : ℕ
  validPoints : Option ℕ
deriving DecidableEq

/-- One iteration of the per-point `forEach` in `validateLidarData`,
acting on the accumulated `(errors, warnings, validPoints)` state.
The early `return` after each failed check is the fall-through
structure below; note a point can contribute a bank-height warning and
still fail the later vegetation-density check. -/
def validatePointStep (acc : List VIssue × List VIssue × ℕ) (ip : ℕ × VPoint) :
    List VIssue × List VIssue × ℕ :=
  let idx := ip.1
  let point := ip.2
  if !(jsTruthy point.latitude) || !(jsTruthy point.longitude) then
    (acc.1 ++ [.missingLatLon idx], acc.2.1, acc.2.2)
  else
    let la := point.latitude.getD 0
    let lo := point.longitude.getD 0
    if la < -90 ∨ la > 90 then
      (acc.1 ++ [.invalidLatitude idx la], acc.2.1, acc.2.2)
    else if lo < -180 ∨ lo > 180 then
      (acc.1 ++ [.invalidLongitude idx lo], acc.2.1, acc.2.2)
    else
      let warns :=
        match point.bank_height_m with
        | some bh =>
            if bh < 0 ∨ bh > 50 then acc.2.1 ++ [.unusualBankHeight idx bh]
            else acc.2.1
        | none => acc.2.1
      match point.veg_density with
      | some vd =>
          if vd < 0 ∨ vd > 1 then (acc.1 ++ [.vegDensityOutOfRange idx], warns, acc.2.2)
          else (acc.1, warns, acc.2.2 + 1)
      | none => (acc.1, warns, acc.2.2 + 1)

/-- `validateLidarData` of `src/js/lidarProcessor.js`. -/
def validateLidarData (lidarArray : List VPoint) : VResult :=
  if lidarArray.length = 0 then
    { isValid := false, errors := [.emptyArray], warnings := [],
      totalPoints := lidarArray.length, validPoints := none }
  else
    let state := lidarArray.enum.foldl validatePointStep ([], [], 0)
    if state.2.2 = 0 then
      { isValid := false, errors := state.1 ++ [.noValidPoints],
        warnings := state.2.1, totalPoints := lidarArray.length,
        validPoints := some state.2.2 }
    else
      { isValid := true, errors := state.1, warnings := state.2.1,
        totalPoints := lidarArray.length, validPoints := some state.2.2 }

/-- The per-point acceptance predicate implicit in `validateLidarData`:
a point increments `validPoints` exactly when it passes the three error
checks (truthy coordinates, coordinate ranges, vegetation-density
range). -/
def pointPasses (point : VPoint) : Bool :=
  if !(jsTruthy point.latitude) || !(jsTruthy point.longitude) then false
  else if point.latitude.getD 0 < -90 ∨ point.latitude.getD 0 > 90 then false
  else if point.longitude.getD 0 < -180 ∨ point.longitude.getD 0 > 180 then false
  else
    match point.veg_density with
    | some vd => if vd < 0 ∨ vd > 1 then false else true
    | none => true

/-! ## Hydrodynamic risk model — `src/js/analyzeRiver.js`

The risk pipeline uses `Math.sqrt` and fractional `Math.pow`, so it is
embedded over `ℝ` (idealising IEEE doubles as reals); the definitions in
this section are noncomputable for that reason.
-/

noncomputable section

/-- `calculateFlowDepth`: Manning-equation flow depth; the
`!baseSlope || baseSlope === 0` guard returns the constant default
depth `1.5`. -/
def calculateFlowDepth (discharge channelWidth manningN baseSlope : ℝ) : ℝ :=
  if baseSlope = 0 then 1.5
  else ((discharge * manningN) / (channelWidth * Real.sqrt baseSlope)) ^ (0.6 : ℝ)

/-- `calculateHydraulicRadius`: area over wetted perimeter. -/
def calculateHydraulicRadius (channelWidth flowDepth : ℝ) : ℝ :=
  (channelWidth * flowDepth) / (channelWidth + 2 * flowDepth)

/-- `calculateVelocity`: Manning velocity. -/
def calculateVelocity (hydraulicRadius manningN baseSlope : ℝ) : ℝ :=
  (1 / manningN) * hydraulicRadius ^ ((2 : ℝ) / 3) * baseSlope ^ ((1 : ℝ) / 2)

/-- `calculateShearStress`. -/
def calculateShearStress (hydraulicRadius baseSlope curvature waterDensity gravity : ℝ) : ℝ :=
  waterDensity * gravity * hydraulicRadius * baseSlope * curvature

/-- `calculateVegetationResistance`. -/
def calculateVegetationResistance (vegDensity : ℝ) : ℝ :=
  1 + vegDensity * 0.5

/-- `calculateAdjustedCriticalShear`. -/
def calculateAdjustedCriticalShear (criticalShear vegDensity : ℝ) : ℝ :=
  criticalShear * calculateVegetationResistance vegDensity

/-- `calculateRiskIndex`: shear ratio with bank-height amplification. -/
def calculateRiskIndex (shearStress adjustedCriticalShear bankHeight : ℝ) : ℝ :=
  let riskIndex := shearStress / adjustedCriticalShear
  if bankHeight > 10 ∧ riskIndex > 1.0 then
    riskIndex * (1 + (bankHeight - 10) / 20)
  else riskIndex

/-- `getRiskCategory`: the five-way classification, checked in source
order with strict comparisons. -/
def getRiskCategory (riskIndex : ℝ) : String :=
  if riskIndex > 1.5 then "High Erosion"
  else if riskIndex > 1.1 then "Medium Erosion"
  else if riskIndex < 0.6 then "High Deposition"
  else if riskIndex < 0.9 then "Medium Deposition"
  else "Stable"

/-- `parseFloat(x.toFixed(2))`: round to two decimal places, ties to the
larger value (the ECMAScript `toFixed` rule). -/
def toFixed2 (x : ℝ) : ℝ := (⌊x * 100 + 1 / 2⌋ : ℤ) / 100

/-- The `calculated` block attached to an analysed segment. -/
structure RiskResult where
  riskIndex : ℝ
  riskCategory : String
  shearStress : ℝ
  velocity : ℝ
  flowDepth : ℝ
  hydraulicRadius : ℝ
  bankHeight : ℝ
  vegDensity : ℝ
  vegetationResistance : ℝ
  adjustedCriticalShear : ℝ

/-- Segment properties as read and written by `calculateSegmentRisk`;
each input is possibly absent. -/
structure SegProps where
  channel_width : Option ℝ := none
  manning_n : Option ℝ := none
  base_slope : Option ℝ := none
  critical_shear : Option ℝ := none
  curvature : Option ℝ := none
  lidar_avg_bank_height_m : Option ℝ := none
  lidar_riparian_veg_density : Option ℝ := none
  calculated : Option RiskResult := none

/-- A river-segment feature as consumed by the risk model. -/
structure SegFeature where
  properties : SegProps

/-- The global hydrodynamic-parameter object; only `waterDensity` and
`gravity` are consumed. -/
structure HydroParams where
  waterDensity : Option ℝ := none
  gravity : Option ℝ := none

/-- `calculateSegmentRisk` of `src/js/analyzeRiver.js`: resolve the seven
per-segment inputs and the two global parameters through `||` defaults,
skip the segment when the resolved width is falsy or nonpositive, else
run the pipeline and attach the rounded `calculated` block. -/
def calculateSegmentRisk (feature : SegFeature) (discharge : ℝ)
    (params : HydroParams) : SegFeature :=
  let props := feature.properties
  let channelWidth := jsOr props.channel_width 200
  let manningN := jsOr props.manning_n 0.035
  let baseSlope := jsOr props.base_slope 0.0005
  let criticalShear := jsOr props.critical_shear 2.5
  let curvature := jsOr props.curvature 1.0
  let bankHeight := jsOr props.lidar_avg_bank_height_m 10.0
  let vegDensity := jsOr props.lidar_riparian_veg_density 0.5
  let waterDensity := jsOr params.waterDensity 1000
  let gravity := jsOr params.gravity 9.81
  if channelWidth = 0 ∨ channelWidth ≤ 0 then feature
  else
    let flowDepth := calculateFlowDepth discharge channelWidth manningN baseSlope
    let hydraulicRadius := calculateHydraulicRadius channelWidth flowDepth
    let velocity := calculateVelocity hydraulicRadius manningN baseSlope
    let shearStress :=
      calculateShearStress hydraulicRadius baseSlope curvature waterDensity gravity
    let vegetationResistance := calculateVegetationResistance vegDensity
    let adjustedCriticalShear := calculateAdjustedCriticalShear criticalShear vegDensity
    let riskIndex := calculateRiskIndex shearStress adjustedCriticalShear bankHeight
    let riskCategory := getRiskCategory riskIndex
    let result : RiskResult :=
      { riskIndex := toFixed2 riskIndex
        riskCategory := riskCategory
        shearStress := toFixed2 shearStress
        velocity := toFixed2 velocity
        flowDepth := toFixed2 flowDepth
        hydraulicRadius := toFixed2 hydraulicRadius
        bankHeight := bankHeight
        vegDensity := vegDensity
        vegetationResistance := toFixed2 vegetationResistance
        adjustedCriticalShear := toFixed2 adjustedCriticalShear }
    { feature with properties := { props with calculated := some result } }

/-- A river FeatureCollection for the risk model (the typed model always
carries a `features` list, so the source's invalid-GeoJSON early return
cannot fire here). -/
structure SegCollection where
  features : List SegFeature

/-- `calculateRiskProfile`: map `calculateSegmentRisk` over every
feature. -/
def calculateRiskProfile (discharge : ℝ) (geojsonData : SegCollection)
    (params : HydroParams) : SegCollection :=
  { geojsonData with
      features := geojsonData.features.map
        (fun feature => calculateSegmentRisk feature discharge params) }

/-! ## Statistics — `getAnalysisStatistics` of `src/js/analyzeRiver.js` -/

/-- A JS number extended with the two infinities, for the max/min
sentinels (`-Infinity` / `Infinity`). -/
inductive XReal where
  | negInf : XReal
  | posInf : XReal
  | fin : ℝ → XReal

/-- `Math.max` against a finite value. -/
def xmax : XReal → ℝ → XReal
  | .negInf, x => .fin x
  | .posInf, _ => .posInf
  | .fin y, x => .fin (max y x)

/-- `Math.min` against a finite value. -/
def xmin : XReal → ℝ → XReal
  | .posInf, x => .fin x
  | .negInf, _ => .negInf
  | .fin y, x => .fin (min y x)

/-- The statistics record built by `getAnalysisStatistics`. -/
structure Stats where
  totalSegments : ℕ
  highErosion : ℕ
  mediumErosion : ℕ
  stable : ℕ
  mediumDeposition : ℕ
  highDeposition : ℕ
  avgRiskIndex : ℝ
  maxRiskIndex : XReal
  minRiskIndex : XReal
  avgVelocity : ℝ
  avgShearStress : ℝ

/-- The initial statistics record. -/
def initStats : Stats :=
  { totalSegments := 0, highErosion := 0, mediumErosion := 0, stable := 0,
    mediumDeposition := 0, highDeposition := 0, avgRiskIndex := 0,
    maxRiskIndex := .negInf, minRiskIndex := .posInf,
    avgVelocity := 0, avgShearStress := 0 }

/-- The category-counting `switch` of `getAnalysisStatistics`. -/
def categoryBump (s : Stats) (cat : String) : Stats :=
  if cat = "High Erosion" then { s with highErosion := s.highErosion + 1 }
  else if cat = "Medium Erosion" then { s with mediumErosion := s.mediumErosion + 1 }
  else if cat = "Stable" then { s with stable := s.stable + 1 }
  else if cat = "Medium Deposition" then { s with mediumDeposition := s.mediumDeposition + 1 }
  else if cat = "High Deposition" then { s with highDeposition := s.highDeposition + 1 }
  else s

/-- One iteration of the `forEach` in `getAnalysisStatistics`: features
without `calculated` are skipped entirely; the state carries the stats
record and the three running sums. -/
def statsStep (acc : Stats × ℝ × ℝ × ℝ) (feature : SegFeature) :
    Stats × ℝ × ℝ × ℝ :=
  match feature.properties.calculated with
  | none => acc
  | some cb =>
      let s1 := { acc.1 with totalSegments := acc.1.totalSegments + 1 }
      let s2 := categoryBump s1 cb.riskCategory
      let s3 := { s2 with maxRiskIndex := xmax s2.maxRiskIndex cb.riskIndex,
                          minRiskIndex := xmin s2.minRiskIndex cb.riskIndex }
      (s3, acc.2.1 + cb.riskIndex, acc.2.2.1 + cb.velocity,
        acc.2.2.2 + cb.shearStress)

/-- `getAnalysisStatistics` of `src/js/analyzeRiver.js`; the argument is
`none` when the input is falsy or has no `features` array (the source
returns `null`). -/
def getAnalysisStatistics (geojsonData : Option SegCollection) : Option Stats :=
  match geojsonData with
  | none => none
  | some data =>
      let r := data.features.foldl statsStep (initStats, 0, 0, 0)
      let stats := r.1
      if 0 < stats.totalSegments then
        some { stats with
          avgRiskIndex := toFixed2 (r.2.1 / (stats.totalSegments : ℝ)),
          avgVelocity := toFixed2 (r.2.2.1 / (stats.totalSegments : ℝ)),
          avgShearStress := toFixed2 (r.2.2.2 / (stats.totalSegments : ℝ)) }
      else some stats

/-- The `calculated` blocks present in a collection, in feature order
(the features `getAnalysisStatistics` actually aggregates). -/
def calcResults (data : SegCollection) : List RiskResult :=
  data.features.filterMap (fun f => f.properties.calculated)

end

/-! ## Concrete inputs used by witnesses and counterexamples -/

/-- A segment whose `channel_width` property is present and zero. -/
noncomputable def segFeatureZeroWidth : SegFeature := ⟨{ channel_width := some 0 }⟩

/-- A segment whose `channel_width` property is present and negative. -/
noncomputable def segFeatureNegWidth : SegFeature := ⟨{ channel_width := some (-5) }⟩

/-- A segment with a present-but-zero vegetation density. -/
noncomputable def segFeatureVegZero : SegFeature :=
  ⟨{ lidar_riparian_veg_density := some 0 }⟩

/-- A GeoJSON LiDAR feature whose properties carry latitude 5 and
longitude 6 while its geometry coordinates are `[20, 10]`. -/
def lidarFeatureConflict : LidarFeature :=
  ⟨some [("latitude".toList, .num 5), ("longitude".toList, .num 6)],
   some ⟨some [20, 10]⟩⟩


/-- A one-LineString river collection whose segment center is
latitude 28, longitude 77. -/
def riverCollection1 : RiverCollection := ⟨[⟨.lineString [⟨77, 28⟩], {}⟩]⟩

/-- A LiDAR point located exactly at that center. -/
def lidarPt1 : LidarPt :=
  { segment_id := .str "L1".toList, latitude := 28, longitude := 77 }

/-- The one-point LiDAR array for the merge witness. -/
def lidarArray1 : List LidarPt := [lidarPt1]

/-- A point that fails validation (missing coordinates). -/
def vPointBad : VPoint := {}

/-- A point that passes validation. -/
def vPointGood : VPoint := { latitude := some 28, longitude := some 77 }

/-- A concrete analysed `calculated` block. -/
noncomputable def riskResult0 : RiskResult :=
  { riskIndex := 2, riskCategory := "High Erosion", shearStress := 3,
    velocity := 4, flowDepth := 1, hydraulicRadius := 1, bankHeight := 10,
    vegDensity := 0.5, vegetationResistance := 1.25, adjustedCriticalShear := 2 }

/-- A collection with exactly one analysed feature. -/
noncomputable def segCollection0 : SegCollection :=
  ⟨[⟨{ calculated := some riskResult0 }⟩]⟩

/-! ## Bridge lemmas for the `mkRat`-based arithmetic -/

theorem qmul_eq (a b : ℚ) : qmul a b = a * b := by
  conv_rhs => rw [← Rat.num_div_den a, ← Rat.num_div_den b, div_mul_div_comm]
  rw [qmul, Rat.mkRat_eq_div]
  push_cast
  ring

theorem qadd_eq (a b : ℚ) : qadd a b = a + b := by
  have ha : ((a.den : ℚ)) ≠ 0 := by exact_mod_cast a.den_nz
  have hb : ((b.den : ℚ)) ≠ 0 := by exact_mod_cast b.den_nz
  conv_rhs => rw [← Rat.num_div_den a, ← Rat.num_div_den b, div_add_div _ _ ha hb]
  rw [qadd, Rat.mkRat_eq_div]
  push_cast
  ring

theorem qsub_eq (a b : ℚ) : qsub a b = a - b := by
  have ha : ((a.den : ℚ)) ≠ 0 := by exact_mod_cast a.den_nz
  have hb : ((b.den : ℚ)) ≠ 0 := by exact_mod_cast b.den_nz
  conv_rhs => rw [← Rat.num_div_den a, ← Rat.num_div_den b, div_sub_div _ _ ha hb]
  rw [qsub, Rat.mkRat_eq_div]
  push_cast
  ring

/-! ## C1 — channel-width guard -/

/-- C1 (counterexample): a segment whose `channel_width` property is
present and equal to `0` — "not greater than 0" — is NOT passed through
unmodified: the falsy `0` is replaced by the default `200` before the
guard, so a `calculated` block is attached. -/
theorem c1_zero_width_counterexample :
    ((calculateSegmentRisk segFeatureZeroWidth 300 {}).properties.calculated).isSome
      = true ∧
    segFeatureZeroWidth.properties.calculated = none := by
  constructor
  · simp only [calculateSegmentRisk, segFeatureZeroWidth, jsOr, if_true]
    rw [if_neg (by norm_num)]
    rfl
  · rfl

/-- C1 (amended): a segment whose `channel_width` property is present and
strictly negative is returned unmodified with no `calculated` field; a
present `channel_width` of exactly `0` is falsy, so the default `200`
applies and a `calculated` block IS attached. -/
theorem c1_channel_width_guard (feature : SegFeature) (discharge : ℝ)
    (params : HydroParams) :
    (∀ w, feature.properties.channel_width = some w → w < 0 →
        calculateSegmentRisk feature discharge params = feature) ∧
    (feature.properties.channel_width = some 0 →
        ((calculateSegmentRisk feature discharge params).properties.calculated).isSome
          = true) := by
  constructor
  · intro w hw hneg
    simp only [calculateSegmentRisk, hw, jsOr]
    rw [if_neg hneg.ne]
    rw [if_pos (Or.inr hneg.le)]
  · intro h0
    simp only [calculateSegmentRisk, h0, jsOr, if_true]
    rw [if_neg (by norm_num)]
    rfl

/-- Witness for C1 at a negative-width and a zero-width segment. -/
theorem c1_channel_width_guard_witness :
    calculateSegmentRisk segFeatureNegWidth 300 {} = segFeatureNegWidth ∧
    ((calculateSegmentRisk segFeatureZeroWidth 300 {}).properties.calculated).isSome
      = true :=
  ⟨(c1_channel_width_guard segFeatureNegWidth 300 {}).1 (-5) rfl (by norm_num),
   (c1_channel_width_guard segFeatureZeroWidth 300 {}).2 rfl⟩

/-! ## C4 — defaults and falsy property values -/

/-- C4 (counterexample): a segment with `lidar_riparian_veg_density`
present and equal to `0` does not keep the zero — the `||` default
replaces it with `0.5` in the attached `calculated` block. -/
theorem c4_zero_veg_counterexample :
    ((calculateSegmentRisk segFeatureVegZero 300 {}).properties.calculated).map
        RiskResult.vegDensity = some 0.5 ∧
    (0.5 : ℝ) ≠ 0 := by
  constructor
  · simp only [calculateSegmentRisk, segFeatureVegZero, jsOr]
    rw [if_neg (by norm_num)]
    simp only [Option.map_some]
    norm_num
  · norm_num

/-- C4 (amended): the per-segment defaults are applied when the property
is absent OR present with the falsy value `0`; only a present non-zero
value is used as-is.  Shown for the two inputs copied verbatim into the
result (`vegDensity`, `bankHeight`) of a segment processed with the
default width. -/
theorem c4_defaults_on_falsy (feature : SegFeature) (discharge : ℝ)
    (params : HydroParams)
    (hcw : feature.properties.channel_width = none) :
    ∃ c, (calculateSegmentRisk feature discharge params).properties.calculated
        = some c ∧
      (feature.properties.lidar_riparian_veg_density = none → c.vegDensity = 0.5) ∧
      (feature.properties.lidar_riparian_veg_density = some 0 → c.vegDensity = 0.5) ∧
      (∀ v, feature.properties.lidar_riparian_veg_density = some v → v ≠ 0 →
        c.vegDensity = v) ∧
      (feature.properties.lidar_avg_bank_height_m = none → c.bankHeight = 10) ∧
      (feature.properties.lidar_avg_bank_height_m = some 0 → c.bankHeight = 10) ∧
      (∀ v, feature.properties.lidar_avg_bank_height_m = some v → v ≠ 0 →
        c.bankHeight = v) := by
  simp only [calculateSegmentRisk, hcw, jsOr]
  rw [if_neg (by norm_num)]
  refine ⟨_, rfl, ?_, ?_, ?_, ?_, ?_, ?_⟩
  · intro h
    norm_num [h, jsOr]
  · intro h
    norm_num [h, jsOr]
  · intro v h hv
    norm_num [h, jsOr, hv]
  · intro h
    norm_num [h, jsOr]
  · intro h
    norm_num [h, jsOr]
  · intro v h hv
    norm_num [h, jsOr, hv]

/-- Witness for C4 at a present-but-zero vegetation density. -/
theorem c4_defaults_on_falsy_witness :
    ∃ c, (calculateSegmentRisk segFeatureVegZero 300 {}).properties.calculated
        = some c ∧ c.vegDensity = 0.5 := by
  obtain ⟨c, hc, _, h0, _⟩ := c4_defaults_on_falsy segFeatureVegZero 300 {} rfl
  exact ⟨c, hc, h0 rfl⟩

/-! ## C2 — risk-category partition -/

/-- C2: for every real riskIndex, `getRiskCategory` returns exactly one of
the five categories, determined by the priority-ordered strict tests
`> 1.5`, `> 1.1`, `< 0.6`, `< 0.9`, else Stable; in particular
`getRiskCategory 1.5 = "Medium Erosion"` and
`getRiskCategory 1.1 = "Stable"`. -/
theorem c2_getRiskCategory_partition (riskIndex : ℝ) :
    (getRiskCategory riskIndex = "High Erosion" ↔ 1.5 < riskIndex) ∧
    (getRiskCategory riskIndex = "Medium Erosion" ↔
      1.1 < riskIndex ∧ riskIndex ≤ 1.5) ∧
    (getRiskCategory riskIndex = "High Deposition" ↔ riskIndex < 0.6) ∧
    (getRiskCategory riskIndex = "Medium Deposition" ↔
      0.6 ≤ riskIndex ∧ riskIndex < 0.9) ∧
    (getRiskCategory riskIndex = "Stable" ↔
      0.9 ≤ riskIndex ∧ riskIndex ≤ 1.1) ∧
    getRiskCategory (1.5 : ℝ) = "Medium Erosion" ∧
    getRiskCategory (1.1 : ℝ) = "Stable" := by
  have hpart :
      (getRiskCategory riskIndex = "High Erosion" ↔ 1.5 < riskIndex) ∧
      (getRiskCategory riskIndex = "Medium Erosion" ↔
        1.1 < riskIndex ∧ riskIndex ≤ 1.5) ∧
      (getRiskCategory riskIndex = "High Deposition" ↔ riskIndex < 0.6) ∧
      (getRiskCategory riskIndex = "Medium Deposition" ↔
        0.6 ≤ riskIndex ∧ riskIndex < 0.9) ∧
      (getRiskCategory riskIndex = "Stable" ↔
        0.9 ≤ riskIndex ∧ riskIndex ≤ 1.1) := by
    unfold getRiskCategory
    split_ifs with h1 h2 h3 h4 <;>
      refine ⟨?_, ?_, ?_, ?_, ?_⟩ <;> simp_all <;> (try (intros; linarith))
  refine ⟨hpart.1, hpart.2.1, hpart.2.2.1, hpart.2.2.2.1, hpart.2.2.2.2, ?_, ?_⟩
  · unfold getRiskCategory
    norm_num
  · unfold getRiskCategory
    norm_num

/-- Witness for C2 at concrete risk indices. -/
theorem c2_getRiskCategory_partition_witness :
    getRiskCategory (2 : ℝ) = "High Erosion" ∧
    getRiskCategory (1 : ℝ) = "Stable" :=
  ⟨(c2_getRiskCategory_partition 2).1.mpr (by norm_num),
   (c2_getRiskCategory_partition 1).2.2.2.2.1.mpr (by norm_num)⟩

/-! ## C6 — flow-depth monotonicity -/

/-- C6: for positive discharge, width, roughness and slope,
`calculateFlowDepth` strictly increases when discharge or Manning
roughness grows, and strictly decreases when channel width or base
slope grows. -/
theorem c6_flow_depth_monotonic (discharge channelWidth manningN baseSlope d : ℝ)
    (hq : 0 < discharge) (hw : 0 < channelWidth) (hn : 0 < manningN)
    (hs : 0 < baseSlope) (hd : 0 < d) :
    calculateFlowDepth discharge channelWidth manningN baseSlope <
        calculateFlowDepth (discharge + d) channelWidth manningN baseSlope ∧
    calculateFlowDepth discharge channelWidth manningN baseSlope <
        calculateFlowDepth discharge channelWidth (manningN + d) baseSlope ∧
    calculateFlowDepth discharge (channelWidth + d) manningN baseSlope <
        calculateFlowDepth discharge channelWidth manningN baseSlope ∧
    calculateFlowDepth discharge channelWidth manningN (baseSlope + d) <
        calculateFlowDepth discharge channelWidth manningN baseSlope := by
  have hsd : 0 < baseSlope + d := by linarith
  have hflow : ∀ q w n s : ℝ, s ≠ 0 →
      calculateFlowDepth q w n s = ((q * n) / (w * Real.sqrt s)) ^ (0.6 : ℝ) := by
    intro q w n s h
    unfold calculateFlowDepth
    rw [if_neg h]
  rw [hflow discharge channelWidth manningN baseSlope hs.ne',
      hflow (discharge + d) channelWidth manningN baseSlope hs.ne',
      hflow discharge channelWidth (manningN + d) baseSlope hs.ne',
      hflow discharge (channelWidth + d) manningN baseSlope hs.ne',
      hflow discharge channelWidth manningN (baseSlope + d) hsd.ne']
  refine ⟨?_, ?_, ?_, ?_⟩
  · apply Real.rpow_lt_rpow (by positivity) ?_ (by norm_num)
    gcongr
    linarith
  · apply Real.rpow_lt_rpow (by positivity) ?_ (by norm_num)
    gcongr
    linarith
  · apply Real.rpow_lt_rpow (by positivity) ?_ (by norm_num)
    gcongr
    linarith
  · apply Real.rpow_lt_rpow (by positivity) ?_ (by norm_num)
    gcongr
    linarith

/-- Witness for C6 at concrete positive inputs. -/
theorem c6_flow_depth_monotonic_witness :
    calculateFlowDepth 1 1 1 1 < calculateFlowDepth (1 + 1) 1 1 1 ∧
    calculateFlowDepth 1 1 1 1 < calculateFlowDepth 1 1 (1 + 1) 1 ∧
    calculateFlowDepth 1 (1 + 1) 1 1 < calculateFlowDepth 1 1 1 1 ∧
    calculateFlowDepth 1 1 1 (1 + 1) < calculateFlowDepth 1 1 1 1 :=
  c6_flow_depth_monotonic 1 1 1 1 1 one_pos one_pos one_pos one_pos one_pos

/-! ## C8 — idempotence of the risk profile -/

/-- `calculateSegmentRisk` applied twice with the same discharge and
parameters equals a single application: the first run only writes the
`calculated` field, and the computation reads only the other fields. -/
theorem calculateSegmentRisk_idem (f : SegFeature) (d : ℝ) (p : HydroParams) :
    calculateSegmentRisk (calculateSegmentRisk f d p) d p =
      calculateSegmentRisk f d p := by
  rcases f with ⟨⟨cw, mn, bs, cs, cu, bh, vd, cal⟩⟩
  by_cases h : (jsOr cw 200 = 0 ∨ jsOr cw 200 ≤ 0)
  · have h1 : calculateSegmentRisk ⟨⟨cw, mn, bs, cs, cu, bh, vd, cal⟩⟩ d p =
        ⟨⟨cw, mn, bs, cs, cu, bh, vd, cal⟩⟩ := by
      simp only [calculateSegmentRisk]
      exact if_pos h
    rw [h1]
    exact h1
  · have hres : ∀ cal2 : Option RiskResult,
        calculateSegmentRisk ⟨⟨cw, mn, bs, cs, cu, bh, vd, cal2⟩⟩ d p =
        ⟨⟨cw, mn, bs, cs, cu, bh, vd,
          (calculateSegmentRisk ⟨⟨cw, mn, bs, cs, cu, bh, vd, none⟩⟩ d
            p).properties.calculated⟩⟩ := by
      intro cal2
      simp only [calculateSegmentRisk]
      rw [if_neg h, if_neg h]
    rw [hres cal]
    exact hres _

/-- C8: `calculateRiskProfile` is idempotent — running it a second time on
its own output with the same discharge and parameters reproduces the
collection, `calculated` blocks included, exactly. -/
theorem c8_risk_profile_idempotent (discharge : ℝ) (geojsonData : SegCollection)
    (params : HydroParams) :
    calculateRiskProfile discharge
        (calculateRiskProfile discharge geojsonData params) params =
      calculateRiskProfile discharge geojsonData params := by
  rcases geojsonData with ⟨fs⟩
  simp only [calculateRiskProfile, List.map_map]
  congr 1
  apply List.map_congr_left
  intro f _
  exact calculateSegmentRisk_idem f discharge params


/-- Witness for C8 on a concrete collection. -/
theorem c8_risk_profile_idempotent_witness :
    calculateRiskProfile 300 (calculateRiskProfile 300 segCollection0 {}) {} =
      calculateRiskProfile 300 segCollection0 {} :=
  c8_risk_profile_idempotent 300 segCollection0 {}

/-! ## C9 — analysis statistics -/

/-- The category `switch` changes only the five counter buckets. -/
theorem categoryBump_fields (s : Stats) (cat : String) :
    (categoryBump s cat).totalSegments = s.totalSegments ∧
    (categoryBump s cat).maxRiskIndex = s.maxRiskIndex ∧
    (categoryBump s cat).minRiskIndex = s.minRiskIndex := by
  unfold categoryBump
  split_ifs <;> exact ⟨rfl, rfl, rfl⟩

/-- The statistics fold counts exactly the features carrying `calculated`
and accumulates the three sums over their blocks. -/
theorem statsFold (l : List SegFeature) (acc : Stats × ℝ × ℝ × ℝ) :
    ((l.foldl statsStep acc).1.totalSegments =
      acc.1.totalSegments + (l.filterMap (fun f => f.properties.calculated)).length) ∧
    ((l.foldl statsStep acc).2.1 =
      acc.2.1 + ((l.filterMap (fun f => f.properties.calculated)).map
        RiskResult.riskIndex).sum) ∧
    ((l.foldl statsStep acc).2.2.1 =
      acc.2.2.1 + ((l.filterMap (fun f => f.properties.calculated)).map
        RiskResult.velocity).sum) ∧
    ((l.foldl statsStep acc).2.2.2 =
      acc.2.2.2 + ((l.filterMap (fun f => f.properties.calculated)).map
        RiskResult.shearStress).sum) := by
  induction l generalizing acc with
  | nil => simp
  | cons f t ih =>
      cases hc : f.properties.calculated with
      | none =>
          have hstep : statsStep acc f = acc := by
            simp [statsStep, hc]
          simp only [List.foldl_cons, List.filterMap_cons, hc, hstep]
          exact ih acc
      | some cb =>
          have h1 : (statsStep acc f).1.totalSegments = acc.1.totalSegments + 1 := by
            simp only [statsStep, hc]
            rw [(categoryBump_fields _ _).1]
          have h2 : (statsStep acc f).2.1 = acc.2.1 + cb.riskIndex := by
            simp only [statsStep, hc]
          have h3 : (statsStep acc f).2.2.1 = acc.2.2.1 + cb.velocity := by
            simp only [statsStep, hc]
          have h4 : (statsStep acc f).2.2.2 = acc.2.2.2 + cb.shearStress := by
            simp only [statsStep, hc]
          obtain ⟨i1, i2, i3, i4⟩ := ih (statsStep acc f)
          simp only [List.foldl_cons, List.filterMap_cons, hc]
          refine ⟨?_, ?_, ?_, ?_⟩
          · rw [i1, h1]
            simp only [List.length_cons]
            omega
          · rw [i2, h2]
            simp only [List.map_cons, List.sum_cons]
            ring
          · rw [i3, h3]
            simp only [List.map_cons, List.sum_cons]
            ring
          · rw [i4, h4]
            simp only [List.map_cons, List.sum_cons]
            ring

/-- When no feature carries `calculated`, the statistics fold is the
identity. -/
theorem statsFold_no_calc (l : List SegFeature) (acc : Stats × ℝ × ℝ × ℝ)
    (h : l.filterMap (fun f => f.properties.calculated) = []) :
    l.foldl statsStep acc = acc := by
  induction l generalizing acc with
  | nil => rfl
  | cons f t ih =>
      cases hc : f.properties.calculated with
      | none =>
          have hstep : statsStep acc f = acc := by
            simp [statsStep, hc]
          simp only [List.filterMap_cons, hc] at h
          simp only [List.foldl_cons, hstep]
          exact ih acc h
      | some cb =>
          simp [List.filterMap_cons, hc] at h

/-- C9: `getAnalysisStatistics` returns `null` for an input without a
features array; otherwise `totalSegments` counts exactly the features
carrying `calculated`, the three averages are the 2-decimal roundings of
sum over count when the count is positive, and with zero qualifying
features the aggregates stay at their sentinels (averages `0`,
`maxRiskIndex = -Infinity`, `minRiskIndex = Infinity`). -/
theorem c9_statistics (data : SegCollection) :
    getAnalysisStatistics none = none ∧
    ∃ stats, getAnalysisStatistics (some data) = some stats ∧
      stats.totalSegments = (calcResults data).length ∧
      (0 < (calcResults data).length →
        stats.avgRiskIndex =
          toFixed2 (((calcResults data).map RiskResult.riskIndex).sum /
            ((calcResults data).length : ℝ)) ∧
        stats.avgVelocity =
          toFixed2 (((calcResults data).map RiskResult.velocity).sum /
            ((calcResults data).length : ℝ)) ∧
        stats.avgShearStress =
          toFixed2 (((calcResults data).map RiskResult.shearStress).sum /
            ((calcResults data).length : ℝ))) ∧
      ((calcResults data).length = 0 →
        stats.avgRiskIndex = 0 ∧ stats.avgVelocity = 0 ∧ stats.avgShearStress = 0 ∧
        stats.maxRiskIndex = XReal.negInf ∧ stats.minRiskIndex = XReal.posInf) := by
  refine ⟨rfl, ?_⟩
  unfold calcResults
  obtain ⟨h1, h2, h3, h4⟩ := statsFold data.features (initStats, (0:ℝ), (0:ℝ), (0:ℝ))
  rw [show ((initStats, (0:ℝ), (0:ℝ), (0:ℝ))).1.totalSegments = 0 from rfl,
    zero_add] at h1
  rw [show ((initStats, (0:ℝ), (0:ℝ), (0:ℝ))).2.1 = (0:ℝ) from rfl, zero_add] at h2
  rw [show ((initStats, (0:ℝ), (0:ℝ), (0:ℝ))).2.2.1 = (0:ℝ) from rfl, zero_add] at h3
  rw [show ((initStats, (0:ℝ), (0:ℝ), (0:ℝ))).2.2.2 = (0:ℝ) from rfl, zero_add] at h4
  simp only [getAnalysisStatistics]
  split_ifs with hpos
  · refine ⟨_, rfl, h1, fun _ => ⟨?_, ?_, ?_⟩, fun h0 => ?_⟩
    · show toFixed2 _ = _
      rw [h2, h1]
    · show toFixed2 _ = _
      rw [h3, h1]
    · show toFixed2 _ = _
      rw [h4, h1]
    · rw [h1, h0] at hpos
      exact absurd hpos (lt_irrefl 0)
  · have hz : (data.features.filterMap (fun f => f.properties.calculated)).length
        = 0 := by
      rw [← h1]
      omega
    have hnil := List.length_eq_zero.mp hz
    have hfold := statsFold_no_calc data.features (initStats, (0:ℝ), (0:ℝ), (0:ℝ)) hnil
    rw [hfold]
    refine ⟨initStats, rfl, ?_, fun hp => ?_, fun _ => ⟨rfl, rfl, rfl, rfl, rfl⟩⟩
    · rw [hz]
      rfl
    · rw [hz] at hp
      exact absurd hp (lt_irrefl 0)

/-- Witness for C9 on a one-feature analysed collection. -/
theorem c9_statistics_witness :
    getAnalysisStatistics none = none ∧
    ∃ stats, getAnalysisStatistics (some segCollection0) = some stats ∧
      stats.totalSegments = 1 := by
  obtain ⟨h0, stats, heq, htot, _, _⟩ := c9_statistics segCollection0
  refine ⟨h0, stats, heq, ?_⟩
  rw [htot]
  rfl

/-! ## C3 — GeoJSON latitude/longitude resolution -/

/-- The last binding of an appended object: bindings of the second
(later-spread) part override the first. -/
theorem objFind_append (a b : JSObj) (k : JStr) :
    objFind (a ++ b) k =
      match objFind b k with
      | some v => some v
      | none => objFind a k := by
  induction a with
  | nil =>
      cases h : objFind b k <;> simp [objFind, h]
  | cons hd tl ih =>
      rcases hd with ⟨k2, v⟩
      show objFind ((k2, v) :: (tl ++ b)) k = _
      rw [objFind, ih]
      cases h : objFind b k with
      | none =>
          cases h2 : objFind tl k <;> simp [objFind, h, h2]
      | some r => simp [objFind, h]

/-- Resolution of the `latitude` binding of a processed LiDAR feature:
a `latitude` binding already present in the feature properties wins
(trailing spread), else the explicit `coords[1] || props.latitude`
entry remains. -/
theorem processLidar_objFind_lat (feature : LidarFeature) :
    objFind (processLidarFeature feature) "latitude".toList =
      match objFind (featureProps feature) "latitude".toList with
      | some v => some v
      | none => some (jsOrV (coordAt feature 1)
          (jsGet (featureProps feature) "latitude".toList)) := by
  rw [show processLidarFeature feature = _ ++ featureProps feature from rfl,
    objFind_append]
  cases h : objFind (featureProps feature) "latitude".toList
  · rfl
  · rfl

/-- Resolution of the `longitude` binding, symmetric to the latitude
case with `coords[0]`. -/
theorem processLidar_objFind_lon (feature : LidarFeature) :
    objFind (processLidarFeature feature) "longitude".toList =
      match objFind (featureProps feature) "longitude".toList with
      | some v => some v
      | none => some (jsOrV (coordAt feature 0)
          (jsGet (featureProps feature) "longitude".toList)) := by
  rw [show processLidarFeature feature = _ ++ featureProps feature from rfl,
    objFind_append]
  cases h : objFind (featureProps feature) "longitude".toList
  · rfl
  · rfl

/-- C3 (counterexample): a feature whose geometry coordinates are
`[20, 10]` but whose properties carry `latitude = 5`, `longitude = 6`
yields a LidarPoint with latitude 5 and longitude 6 — the trailing
`...props` spread overrides the geometry-derived values, contradicting
the claim that the geometry coordinate wins. -/
theorem c3_spread_override_counterexample :
    processLidarGeoJSON ⟨some [lidarFeatureConflict]⟩ =
      .ok [processLidarFeature lidarFeatureConflict] ∧
    jsGet (processLidarFeature lidarFeatureConflict) "latitude".toList = .num 5 ∧
    jsGet (processLidarFeature lidarFeatureConflict) "longitude".toList = .num 6 ∧
    JSVal.num 5 ≠ JSVal.num 10 ∧ JSVal.num 6 ≠ JSVal.num 20 := by
  refine ⟨rfl, ?_, ?_, by decide, by decide⟩ <;> decide

/-- C3 (amended): the resulting point's latitude equals the properties'
own `latitude` entry whenever the properties object contains one (the
trailing spread overrides the geometry value); only when the properties
lack a `latitude` key does it come from `geometry.coordinates[1]`, and
then a missing or zero (falsy) coordinate falls back to the undefined
`properties.latitude`.  Symmetrically for longitude with
`coordinates[0]`. -/
theorem c3_lat_lon_resolution (feature : LidarFeature) :
    (∀ v, objFind (featureProps feature) "latitude".toList = some v →
        jsGet (processLidarFeature feature) "latitude".toList = v) ∧
    (objFind (featureProps feature) "latitude".toList = none →
        jsGet (processLidarFeature feature) "latitude".toList =
          (if (coordAt feature 1).truthy then coordAt feature 1 else .undefined)) ∧
    (∀ v, objFind (featureProps feature) "longitude".toList = some v →
        jsGet (processLidarFeature feature) "longitude".toList = v) ∧
    (objFind (featureProps feature) "longitude".toList = none →
        jsGet (processLidarFeature feature) "longitude".toList =
          (if (coordAt feature 0).truthy then coordAt feature 0 else .undefined)) := by
  refine ⟨?_, ?_, ?_, ?_⟩
  · intro v hv
    simp only [jsGet]
    rw [processLidar_objFind_lat, hv]
    rfl
  · intro hv
    simp only [jsGet]
    rw [processLidar_objFind_lat]
    simp only [jsGet]
    rw [hv]
    rfl
  · intro v hv
    simp only [jsGet]
    rw [processLidar_objFind_lon, hv]
    rfl
  · intro hv
    simp only [jsGet]
    rw [processLidar_objFind_lon]
    simp only [jsGet]
    rw [hv]
    rfl

/-- Witness for C3 on the conflicting feature. -/
theorem c3_lat_lon_resolution_witness :
    jsGet (processLidarFeature lidarFeatureConflict) "latitude".toList = .num 5 ∧
    jsGet (processLidarFeature lidarFeatureConflict) "longitude".toList = .num 6 :=
  ⟨(c3_lat_lon_resolution lidarFeatureConflict).1 (.num 5) (by decide),
   (c3_lat_lon_resolution lidarFeatureConflict).2.2.1 (.num 6) (by decide)⟩

/-! ## C5 — merge round-trip on exact centers -/

/-- The squared-distance form of the Distance Utility. -/
theorem calculateDistance_eq (lat1 lon1 lat2 lon2 : ℚ) :
    calculateDistance lat1 lon1 lat2 lon2 =
      (lat2 - lat1) * (lat2 - lat1) + (lon2 - lon1) * (lon2 - lon1) := by
  simp [calculateDistance, qmul_eq, qadd_eq, qsub_eq]

/-- Distances are nonnegative. -/
theorem calculateDistance_nonneg (lat1 lon1 lat2 lon2 : ℚ) :
    0 ≤ calculateDistance lat1 lon1 lat2 lon2 := by
  rw [calculateDistance_eq]
  exact add_nonneg (mul_self_nonneg _) (mul_self_nonneg _)

/-- The distance vanishes exactly at the target coordinates. -/
theorem calculateDistance_eq_zero_iff (lat1 lon1 lat2 lon2 : ℚ) :
    calculateDistance lat1 lon1 lat2 lon2 = 0 ↔ lat2 = lat1 ∧ lon2 = lon1 := by
  rw [calculateDistance_eq]
  constructor
  · intro h
    have e1 := mul_self_nonneg (lat2 - lat1)
    have e2 := mul_self_nonneg (lon2 - lon1)
    have hA : lat2 - lat1 = 0 := mul_self_eq_zero.mp (by linarith)
    have hB : lon2 - lon1 = 0 := mul_self_eq_zero.mp (by linarith)
    exact ⟨by linarith, by linarith⟩
  · rintro ⟨h1, h2⟩
    rw [h1, h2]
    ring

/-- Once the scan state holds distance zero, no later point replaces it
(the comparison is strict). -/
theorem nearestFold_zero_absorb (lat lon : ℚ) (l : List LidarPt) (b : LidarPt) :
    (l.foldl (nearestStep lat lon) (some b, some 0)).1 = some b := by
  induction l with
  | nil => rfl
  | cons p t ih =>
      have hstep : nearestStep lat lon (some b, some 0) p = (some b, some 0) := by
        simp only [nearestStep]
        rw [if_neg (not_lt.mpr (calculateDistance_nonneg lat lon
          p.latitude p.longitude))]
      rw [List.foldl_cons, hstep]
      exact ih

/-- If the scan state is initial or holds a positive minimum, the scan
returns the first zero-distance point of the list. -/
theorem nearestFold_finds_zero (lat lon : ℚ) (l : List LidarPt) (q : LidarPt) :
    ∀ acc : Option LidarPt × Option ℚ,
    (acc.2 = none ∨ ∃ m, acc.2 = some m ∧ 0 < m) →
    l.find? (fun p => calculateDistance lat lon p.latitude p.longitude == 0)
      = some q →
    (l.foldl (nearestStep lat lon) acc).1 = some q := by
  induction l with
  | nil =>
      intro acc hacc hq
      simp at hq
  | cons p t ih =>
      intro acc hacc hq
      by_cases hp : (calculateDistance lat lon p.latitude p.longitude == 0) = true
      · have hp2 : (fun x : LidarPt =>
            calculateDistance lat lon x.latitude x.longitude == 0) p = true := hp
        rw [List.find?_cons_of_pos t hp2] at hq
        have hpq : p = q := by injection hq
        subst hpq
        have hd : calculateDistance lat lon p.latitude p.longitude = 0 := by
          simpa using hp
        have hstep : nearestStep lat lon acc p = (some p, some 0) := by
          rcases hacc with h | ⟨m, hm, hmpos⟩
          · simp only [nearestStep, h]
            rw [hd]
          · simp only [nearestStep, hm]
            rw [if_pos (by rw [hd]; exact hmpos), hd]
        rw [List.foldl_cons, hstep]
        exact nearestFold_zero_absorb lat lon t p
      · have hp2 : ¬ (fun x : LidarPt =>
            calculateDistance lat lon x.latitude x.longitude == 0) p = true := hp
        rw [List.find?_cons_of_neg t (by simpa using hp2)] at hq
        have hne : calculateDistance lat lon p.latitude p.longitude ≠ 0 := by
          simpa using hp
        have hdpos : 0 < calculateDistance lat lon p.latitude p.longitude :=
          lt_of_le_of_ne (calculateDistance_nonneg lat lon p.latitude p.longitude)
            (Ne.symm hne)
        rw [List.foldl_cons]
        apply ih _ ?_ hq
        rcases hacc with h | ⟨m, hm, hmpos⟩
        · right
          exact ⟨_, by simp [nearestStep, h], hdpos⟩
        · simp only [nearestStep, hm]
          by_cases hlt : calculateDistance lat lon p.latitude p.longitude < m
          · rw [if_pos hlt]
            right
            exact ⟨_, rfl, hdpos⟩
          · rw [if_neg hlt]
            right
            exact ⟨m, hm, hmpos⟩

/-- `findNearestLidarPoint` returns the first point at distance zero when
one exists. -/
theorem findNearest_zero (lat lon : ℚ) (l : List LidarPt) (q : LidarPt)
    (hq : l.find? (fun p => calculateDistance lat lon p.latitude p.longitude == 0)
      = some q) :
    findNearestLidarPoint lat lon l = some q :=
  nearestFold_finds_zero lat lon l q (none, none) (Or.inl rfl) hq

/-- `find?` only depends on the pointwise values of its predicate. -/
theorem find?_congr_pred {α : Type} (l : List α) (p q : α → Bool)
    (h : ∀ x, p x = q x) : l.find? p = l.find? q := by
  induction l with
  | nil => rfl
  | cons a t ih => simp only [List.find?, h a, ih]

/-- The merge metadata is set unconditionally once a nearest point is
found. -/
theorem applyLidar_meta (props : RiverProps) (p : LidarPt) :
    (applyLidarToProps props p).lidar_merged = true ∧
    (applyLidarToProps props p).lidar_source_id = some p.segment_id :=
  ⟨rfl, rfl⟩

/-- C5: merging a river collection with a LiDAR set containing, for each
segment, a point exactly at that segment's center sets
`lidar_merged = true` on every segment and `lidar_source_id` to the
segment id of the nearest point — the first point of the array located
at the center (planar-Euclidean nearest selection, ties to the
first-encountered minimum). -/
theorem c5_merge_round_trip (river : RiverCollection) (lidarArray : List LidarPt)
    (hne : lidarArray ≠ [])
    (hcenter : ∀ f ∈ river.features, ∃ c, getSegmentCenter f.geometry = some c)
    (hcover : ∀ f ∈ river.features, ∀ c, getSegmentCenter f.geometry = some c →
        ∃ pt ∈ lidarArray, pt.latitude = c.latitude ∧ pt.longitude = c.longitude) :
    mergeLidarWithRiver river lidarArray =
      .ok { river with features := river.features.map (mergeFeature lidarArray) } ∧
    ∀ f ∈ river.features,
      (mergeFeature lidarArray f).properties.lidar_merged = true ∧
      ∀ c, getSegmentCenter f.geometry = some c →
        (mergeFeature lidarArray f).properties.lidar_source_id =
          (lidarArray.find? (fun pt =>
              pt.latitude == c.latitude && pt.longitude == c.longitude)).map
            (fun pt => pt.segment_id) := by
  constructor
  · unfold mergeLidarWithRiver
    rw [if_neg (fun h => hne (List.length_eq_zero.mp h))]
  · intro f hf
    obtain ⟨c0, hc0⟩ := hcenter f hf
    obtain ⟨p, hpmem, hplat, hplon⟩ := hcover f hf c0 hc0
    have hpred : ∀ x : LidarPt,
        (calculateDistance c0.latitude c0.longitude x.latitude x.longitude == 0) =
        (x.latitude == c0.latitude && x.longitude == c0.longitude) := by
      intro x
      rw [Bool.eq_iff_iff]
      simp only [beq_iff_eq, Bool.and_eq_true]
      exact calculateDistance_eq_zero_iff c0.latitude c0.longitude
        x.latitude x.longitude
    cases hq : lidarArray.find? (fun pt =>
        pt.latitude == c0.latitude && pt.longitude == c0.longitude) with
    | none =>
        rw [List.find?_eq_none] at hq
        exact absurd (by simp [hplat, hplon]) (hq p hpmem)
    | some q =>
        have hqdist : lidarArray.find? (fun pt =>
            calculateDistance c0.latitude c0.longitude pt.latitude pt.longitude
              == 0) = some q := by
          rw [find?_congr_pred lidarArray _ _ hpred]
          exact hq
        have hnear := findNearest_zero c0.latitude c0.longitude lidarArray q hqdist
        have hmf : mergeFeature lidarArray f =
            { f with properties := applyLidarToProps f.properties q } := by
          unfold mergeFeature
          rw [hc0]
          dsimp only
          rw [hnear]
        rw [hmf]
        refine ⟨(applyLidar_meta _ _).1, ?_⟩
        intro c hc
        rw [hc0] at hc
        have hcc : c0 = c := by injection hc
        subst hcc
        rw [hq]
        simp only [Option.map_some]
        exact (applyLidar_meta _ _).2

/-- Witness for C5: one LineString segment and one LiDAR point at its
exact center. -/
theorem c5_merge_round_trip_witness :
    mergeLidarWithRiver riverCollection1 lidarArray1 =
      .ok { riverCollection1 with
        features := riverCollection1.features.map (mergeFeature lidarArray1) } ∧
    ∀ f ∈ riverCollection1.features,
      (mergeFeature lidarArray1 f).properties.lidar_merged = true ∧
      ∀ c, getSegmentCenter f.geometry = some c →
        (mergeFeature lidarArray1 f).properties.lidar_source_id =
          (lidarArray1.find? (fun pt =>
              pt.latitude == c.latitude && pt.longitude == c.longitude)).map
            (fun pt => pt.segment_id) :=
  c5_merge_round_trip riverCollection1 lidarArray1 (by decide)
    (by
      intro f hf
      have hf2 : f = ⟨.lineString [⟨77, 28⟩], {}⟩ := by
        simpa [riverCollection1] using hf
      subst hf2
      exact ⟨⟨28, 77⟩, rfl⟩)
    (by
      intro f hf c hc
      have hf2 : f = ⟨.lineString [⟨77, 28⟩], {}⟩ := by
        simpa [riverCollection1] using hf
      subst hf2
      have hcc : some (⟨28, 77⟩ : Center) = some c := by
        rw [← hc]
        rfl
      have hcc2 : (⟨28, 77⟩ : Center) = c := by injection hcc
      subst hcc2
      exact ⟨lidarPt1, by simp [lidarArray1], rfl, rfl⟩)

/-! ## C7 — CSV ingestion error paths -/

/-- C7: `parseCSVText` fails naming exactly the missing required columns
whenever the header lacks any of `segment_id`, `latitude`, `longitude`;
fails on fewer than two non-empty lines; and fails when no valid data
row survives the truthiness filter. -/
theorem c7_csv_error_paths (csvText : JStr) :
    ((csvLines csvText).length < 2 → parseCSVText csvText = .error .headerAndRow) ∧
    (2 ≤ (csvLines csvText).length → csvMissing csvText ≠ [] →
        parseCSVText csvText = .error (.missingColumns (csvMissing csvText))) ∧
    (2 ≤ (csvLines csvText).length → csvMissing csvText = [] →
        csvDataRows csvText = [] → parseCSVText csvText = .error .noValidRows) := by
  refine ⟨?_, ?_, ?_⟩
  · intro h
    unfold parseCSVText
    rw [if_pos h]
  · intro h2 hmiss
    unfold parseCSVText
    rw [if_neg (not_lt.mpr h2), if_pos (List.length_pos.mpr hmiss)]
  · intro h2 hmiss hrows
    unfold parseCSVText
    rw [if_neg (not_lt.mpr h2), if_neg (by rw [hmiss]; exact lt_irrefl 0),
      if_pos (by rw [hrows]; rfl)]

/-- Witness for C7: a CSV missing only `longitude` fails naming exactly
`longitude`; a blank input fails the two-line check; a header-only-valid
CSV whose sole data row has latitude 0 (falsy, dropped) fails with the
no-valid-rows error. -/
theorem c7_csv_error_paths_witness :
    parseCSVText "segment_id,latitude\ns1,10".toList =
      .error (.missingColumns ["longitude".toList]) ∧
    parseCSVText " ".toList = .error .headerAndRow ∧
    parseCSVText "segment_id,latitude,longitude\ns1,0,20".toList =
      .error .noValidRows := by
  refine ⟨?_, ?_, ?_⟩
  · have h := (c7_csv_error_paths "segment_id,latitude\ns1,10".toList).2.1
      (by decide) (by decide)
    rw [h]
    decide
  · exact (c7_csv_error_paths " ".toList).1 (by decide)
  · exact (c7_csv_error_paths "segment_id,latitude,longitude\ns1,0,20".toList).2.2
      (by decide) (by decide) (by decide)

/-! ## C10 — validation verdict -/

/-- One validation step increments `validPoints` exactly on a passing
point. -/
theorem validateStep_validPoints (acc : List VIssue × List VIssue × ℕ)
    (ip : ℕ × VPoint) :
    (validatePointStep acc ip).2.2 =
      acc.2.2 + (if pointPasses ip.2 then 1 else 0) := by
  rcases ip with ⟨idx, point⟩
  cases hb : point.bank_height_m <;> cases hv : point.veg_density <;>
    simp only [validatePointStep, pointPasses, hb, hv] <;>
    split_ifs <;> simp_all

/-- The validation fold counts passing points. -/
theorem validateFold_validPoints (l : List (ℕ × VPoint))
    (acc : List VIssue × List VIssue × ℕ) :
    (l.foldl validatePointStep acc).2.2 =
      acc.2.2 + l.countP (fun ip => pointPasses ip.2) := by
  induction l generalizing acc with
  | nil => simp
  | cons ip t ih =>
      rw [List.foldl_cons, ih, validateStep_validPoints, List.countP_cons]
      split_ifs with h <;> omega

/-- Counting over an enumerated list ignores the indices. -/
theorem enumFrom_countP (l : List VPoint) (f : VPoint → Bool) : ∀ n : ℕ,
    ((List.enumFrom n l).countP (fun ip => f ip.2)) = l.countP f := by
  induction l with
  | nil => intro n; rfl
  | cons p t ih =>
      intro n
      simp only [List.enumFrom, List.countP_cons, ih]

/-- C10: `validateLidarData` reports `isValid = true` exactly when the
array is non-empty and at least one point passes every per-point check —
per-point errors from other points never flip the verdict — and on a
non-empty array `validPoints` counts exactly the passing points. -/
theorem c10_validation (lidarArray : List VPoint) :
    ((validateLidarData lidarArray).isValid = true ↔
      lidarArray ≠ [] ∧ ∃ pt ∈ lidarArray, pointPasses pt = true) ∧
    (lidarArray ≠ [] →
      (validateLidarData lidarArray).validPoints =
        some (lidarArray.countP pointPasses)) := by
  by_cases hnil : lidarArray = []
  · subst hnil
    exact ⟨by simp [validateLidarData], fun h => absurd rfl h⟩
  · have hlen : ¬ lidarArray.length = 0 := fun h => hnil (List.length_eq_zero.mp h)
    have hcount := validateFold_validPoints lidarArray.enum ([], [], 0)
    rw [show (([] : List VIssue), ([] : List VIssue), (0 : ℕ)).2.2 = 0 from rfl,
      zero_add] at hcount
    rw [show (lidarArray.enum.countP fun ip => pointPasses ip.2) =
      lidarArray.countP pointPasses from enumFrom_countP lidarArray pointPasses 0]
      at hcount
    unfold validateLidarData
    rw [if_neg hlen]
    dsimp only
    split_ifs with hzero
    · have hcp : lidarArray.countP pointPasses = 0 := by omega
      constructor
      · constructor
        · intro hIs
          exact absurd hIs (by simp)
        · rintro ⟨-, pt, hpt, hpass⟩
          have hpos : 0 < lidarArray.countP pointPasses :=
            List.countP_pos_iff.mpr ⟨pt, hpt, hpass⟩
          omega
      · intro _
        show some _ = _
        rw [hzero, hcp]
    · constructor
      · constructor
        · intro _
          refine ⟨hnil, List.countP_pos_iff.mp (by omega)⟩
        · intro _
          rfl
      · intro _
        show some _ = _
        rw [hcount]

/-- Witness for C10: one failing point (missing coordinates) plus one
passing point — the verdict is valid while the errors list is not
empty. -/
theorem c10_validation_witness :
    (validateLidarData [vPointBad, vPointGood]).isValid = true ∧
    (validateLidarData [vPointBad, vPointGood]).errors ≠ [] ∧
    (validateLidarData [vPointBad, vPointGood]).validPoints = some 1 :=
  ⟨(c10_validation [vPointBad, vPointGood]).1.mpr (by decide), by decide,
   by rw [(c10_validation [vPointBad, vPointGood]).2 (by decide)]; decide⟩

end River
